import Mathlib

/-!
Verification of the turn/attack resolution engine of the PewPew tabletop
cybersecurity game (backend/app). The definitions below are a shallow
embedding of the Python source: enums become inductives, Pydantic models
become structures, and each route/service function that the claims touch
becomes a Lean function over explicit state. Randomness (generated source
IPs, alert jitter, noise alerts) is passed in as explicit parameters.
Timestamps are abstracted to natural numbers (seconds).
-/

namespace PewPew

/-- models.AttackType (string enum RCE/SQLi/Bruteforce/Phishing/LateralMove/Exfil). -/
inductive AttackType
  | RCE
  | SQLI
  | BRUTEFORCE
  | PHISHING
  | LATERALMOVE
  | EXFIL
deriving DecidableEq, Repr

/-- models.BlueActionType. -/
inductive BlueActionType
  | isolate_host
  | block_ip
  | block_domain
  | update_waf
  | disable_account
  | reset_password
  | open_ticket
deriving DecidableEq, Repr

/-- models.ScanToolType. -/
inductive ScanToolType
  | OWASP_ZAP
  | NMAP
  | SQLMAP
  | NIKTO
  | HAVEIBEENPWNED
deriving DecidableEq, Repr

/-- models.GameStatus. -/
inductive GameStatus
  | lobby
  | running
  | paused
  | finished
deriving DecidableEq, Repr

/-- The two sides; GameState.current_turn is `Option Side` (None before start). -/
inductive Side
  | red
  | blue
deriving DecidableEq, Repr

/-- models.Attack (the fields the engine reads; preconditions and
effect maps are never consulted by the resolution logic). -/
structure Attack where
  id : String
  attack_type : AttackType
  from_node : String
  to_node : String
  is_correct_choice : Bool
  requires_scan : Bool
  required_scan_tool : Option ScanToolType
deriving DecidableEq, Repr

/-- models.Alert, restricted to the fields the resolver and the success
heuristic read (source, severity, summary). -/
structure Alert where
  source : String
  severity : String
  summary : String
deriving DecidableEq, Repr

/-- models.BlueAction (fields read by the tiered resolver). -/
structure BlueAction where
  id : String
  type : BlueActionType
  target : String
  note : String
deriving DecidableEq, Repr

/-- Effectiveness tier labels of ActionEvaluation; `partialEffect` models the
source string "partial" (that word itself is a Lean keyword). -/
inductive Effectiveness
  | optimal
  | effective
  | partialEffect
  | ineffective
  | wrong_target
deriving DecidableEq, Repr

/-- Result classification strings used by resolve_outcome_tiered and
ActionEvaluation ("hit" appears only as an overall result). -/
inductive OverallResult
  | successful_block
  | successful_mitigation
  | unsuccessful_mitigation
  | unsuccessful_block
  | hit
deriving DecidableEq, Repr

/-- models.ActionEvaluation (the human-readable `reason` string is carried
by the source but never branched on; it is omitted here). -/
structure ActionEvaluation where
  action_id : String
  action_type : BlueActionType
  target : String
  effectiveness : Effectiveness
  points : Int
  result : OverallResult
deriving DecidableEq, Repr

/-- Python `str.lower()` over the characters of a string. -/
def lowerStr (s : String) : String :=
  String.mk (s.data.map Char.toLower)

/-- Whether the second list starts with the first (helper for substring
containment, Python's `needle in hay`). -/
def leadMatch : List Char → List Char → Bool
  | [], _ => true
  | _ :: _, [] => false
  | c :: cs, d :: ds => c == d && leadMatch cs ds

/-- Whether `needle` occurs as a contiguous sublist of the second list. -/
def subMatch (needle : List Char) : List Char → Bool
  | [] => leadMatch needle []
  | d :: ds => leadMatch needle (d :: ds) || subMatch needle ds

/-- Python's `needle in hay` on strings. -/
def containsKw (hay needle : String) : Bool :=
  subMatch needle.data hay.data

/-- The per-alert keyword test of resolver.determine_attack_success: does
this alert mark the attack of type `t` as having succeeded? -/
def alertMatches (t : AttackType) (a : Alert) : Bool :=
  let s := lowerStr a.summary
  match t with
  | .RCE =>
      (containsKw s "command execution" || containsKw s "spawned")
      || (containsKw s "reverse shell" || containsKw s "outbound network connection")
      || (containsKw s "backdoor" || containsKw s "file system write")
  | .SQLI =>
      containsKw s "anomalous database query" || containsKw (lowerStr a.source) "database"
  | .BRUTEFORCE =>
      containsKw s "successful login" || containsKw s "authentication success"
  | .PHISHING =>
      containsKw s "macro execution" || containsKw s "macro"
  | .LATERALMOVE =>
      containsKw s "privilege escalation" || containsKw s "lateral movement"
  | .EXFIL =>
      containsKw s "large data transfer" || containsKw s "data transfer"

/-- resolver.determine_attack_success: scans the alerts for attack-type
specific keyword signatures; any single match sets success and appends the
matching alert's summary to the indicator list. -/
def determineAttackSuccess (attack : Attack) (alerts : List Alert) :
    Bool × List String :=
  let hits := alerts.filter (alertMatches attack.attack_type)
  (!hits.isEmpty, hits.map (·.summary))

/-- One entry of the hand-authored scoring matrix (reason strings omitted). -/
structure Tier where
  effectiveness : Effectiveness
  points : Int
  result : OverallResult
deriving DecidableEq, Repr

/-- resolver.get_scoring_matrix as a lookup function: the dict keyed by
(action type, target-correct) per attack type and success state; pairs
absent from the source dict return none. -/
def getScoringMatrix (t : AttackType) (succeeded : Bool)
    (a : BlueActionType) (targetCorrect : Bool) : Option Tier :=
  match t, succeeded, a, targetCorrect with
  | .RCE, true, .isolate_host, true => some ⟨.optimal, 10, .successful_block⟩
  | .RCE, true, .block_ip, true => some ⟨.effective, 6, .successful_mitigation⟩
  | .RCE, true, .update_waf, true => some ⟨.partialEffect, 3, .successful_mitigation⟩
  | .RCE, true, .block_domain, true => some ⟨.ineffective, -2, .unsuccessful_mitigation⟩
  | .RCE, true, .isolate_host, false => some ⟨.wrong_target, -3, .unsuccessful_block⟩
  | .RCE, false, .update_waf, true => some ⟨.optimal, 10, .successful_block⟩
  | .RCE, false, .isolate_host, true => some ⟨.effective, 6, .successful_mitigation⟩
  | .RCE, false, .block_ip, true => some ⟨.partialEffect, 3, .successful_mitigation⟩
  | .RCE, false, .block_domain, true => some ⟨.ineffective, -2, .unsuccessful_mitigation⟩
  | .RCE, false, .update_waf, false => some ⟨.wrong_target, -3, .unsuccessful_block⟩
  | .SQLI, true, .isolate_host, true => some ⟨.optimal, 10, .successful_block⟩
  | .SQLI, true, .update_waf, true => some ⟨.effective, 6, .successful_mitigation⟩
  | .SQLI, false, .update_waf, true => some ⟨.optimal, 10, .successful_block⟩
  | .SQLI, false, .isolate_host, true => some ⟨.effective, 6, .successful_mitigation⟩
  | .BRUTEFORCE, true, .disable_account, true => some ⟨.optimal, 10, .successful_block⟩
  | .BRUTEFORCE, true, .isolate_host, true => some ⟨.effective, 6, .successful_mitigation⟩
  | .BRUTEFORCE, false, .disable_account, true => some ⟨.optimal, 10, .successful_block⟩
  | .BRUTEFORCE, false, .isolate_host, true => some ⟨.effective, 6, .successful_mitigation⟩
  | .PHISHING, true, .isolate_host, true => some ⟨.optimal, 10, .successful_block⟩
  | .PHISHING, true, .block_domain, true => some ⟨.effective, 6, .successful_mitigation⟩
  | .PHISHING, false, .block_domain, true => some ⟨.optimal, 10, .successful_block⟩
  | .PHISHING, false, .isolate_host, true => some ⟨.effective, 6, .successful_mitigation⟩
  | .LATERALMOVE, true, .isolate_host, true => some ⟨.optimal, 10, .successful_block⟩
  | .LATERALMOVE, true, .block_ip, true => some ⟨.effective, 6, .successful_mitigation⟩
  | .LATERALMOVE, false, .isolate_host, true => some ⟨.optimal, 10, .successful_block⟩
  | .LATERALMOVE, false, .block_ip, true => some ⟨.effective, 6, .successful_mitigation⟩
  | .EXFIL, true, .isolate_host, true => some ⟨.optimal, 10, .successful_block⟩
  | .EXFIL, true, .block_ip, true => some ⟨.effective, 6, .successful_mitigation⟩
  | .EXFIL, true, .block_domain, true => some ⟨.partialEffect, 3, .successful_mitigation⟩
  | .EXFIL, false, .block_ip, true => some ⟨.optimal, 10, .successful_block⟩
  | .EXFIL, false, .isolate_host, true => some ⟨.effective, 6, .successful_mitigation⟩
  | .EXFIL, false, .block_domain, true => some ⟨.partialEffect, 3, .successful_mitigation⟩
  | _, _, _, _ => none

/-- resolver.evaluate_action_tiered: look up (action type, target-correct)
in the matrix; a missing pair defaults to ineffective, -2 points,
unsuccessful_mitigation. -/
def evaluateActionTiered (action : BlueAction) (attack : Attack)
    (attackSucceeded : Bool) : ActionEvaluation :=
  let targetCorrect :=
    action.target == attack.to_node || action.target == attack.from_node
  match getScoringMatrix attack.attack_type attackSucceeded action.type targetCorrect with
  | none =>
      { action_id := action.id, action_type := action.type, target := action.target
        effectiveness := .ineffective, points := -2, result := .unsuccessful_mitigation }
  | some tier =>
      { action_id := action.id, action_type := action.type, target := action.target
        effectiveness := tier.effectiveness, points := tier.points, result := tier.result }

/-- Output of resolve_outcome_tiered (`score_deltas` split into its two
components; emitted_alerts echo the input and are not repeated here). -/
structure TieredOutcome where
  result : OverallResult
  attack_succeeded : Bool
  success_indicators : List String
  score_delta_red : Int
  score_delta_blue : Int
  action_evaluations : List ActionEvaluation
deriving DecidableEq, Repr

/-- resolver.resolve_outcome_tiered: determine success from the alerts,
evaluate every blue action against the matrix, classify the overall result,
and award red the attack-type execution points only when the attack
succeeded and was not effectively contained. -/
def resolveOutcomeTiered (attack : Attack) (blue_actions : List BlueAction)
    (alerts : List Alert) : TieredOutcome :=
  let sd := determineAttackSuccess attack alerts
  let attackSucceeded := sd.1
  let evals := blue_actions.map (fun a => evaluateActionTiered a attack attackSucceeded)
  let totalBlue := (evals.map (·.points)).sum
  let optimalActions := evals.filter (fun e => e.effectiveness == Effectiveness.optimal)
  let effectiveActions := evals.filter (fun e => e.effectiveness == Effectiveness.effective)
  let overall :=
    if !optimalActions.isEmpty then OverallResult.successful_block
    else if !effectiveActions.isEmpty then OverallResult.successful_mitigation
    else if evals.any (fun e => e.points > 0) then OverallResult.unsuccessful_mitigation
    else if blue_actions.isEmpty then OverallResult.hit
    else OverallResult.unsuccessful_block
  let redPoints : Int :=
    if attackSucceeded
        && (overall == OverallResult.hit || overall == OverallResult.unsuccessful_block
            || overall == OverallResult.unsuccessful_mitigation) then
      match attack.attack_type with
      | .RCE => 10
      | .SQLI => 8
      | .BRUTEFORCE => 5
      | .PHISHING => 3
      | .LATERALMOVE => 3
      | .EXFIL => 5
    else 0
  { result := overall
    attack_succeeded := attackSucceeded
    success_indicators := sd.2
    score_delta_red := redPoints
    score_delta_blue := totalBlue
    action_evaluations := evals }

/-! ## Vote aggregator

The five identification/selection mini-games all use the same pattern: a
Python dict mapping player name to the player's latest choice, a count
histogram built by iterating the dict values, a strict-greater fold to find
the majority entry, and `has_majority = majority_count > total_votes / 2`.
The dict is modelled as an insertion-ordered association list (Python dicts
preserve insertion order, and updating an existing key keeps its position).
-/

/-- `votes[player_name] = choice`: overwrite the voter's previous entry in
place, or append a new entry. -/
def submitVote (ledger : List (String × String)) (voter choice : String) :
    List (String × String) :=
  if ledger.any (fun p => p.1 == voter) then
    ledger.map (fun p => if p.1 == voter then (voter, choice) else p)
  else ledger ++ [(voter, choice)]

/-- The dict values, in insertion order. -/
def voteValues (ledger : List (String × String)) : List String :=
  ledger.map (·.2)

/-- Number of votes for one choice. -/
def countOf (choices : List String) (c : String) : Nat :=
  (choices.filter (fun x => x == c)).length

/-- The distinct choices in order of first appearance (the iteration order
of the Python `vote_counts` dict). -/
def firstSeen (choices : List String) : List String :=
  choices.foldl (fun acc c => if acc.contains c then acc else acc ++ [c]) []

/-- The `vote_counts` histogram: choice -> count, in first-seen order. -/
def voteCounts (ledger : List (String × String)) : List (String × Nat) :=
  (firstSeen (voteValues ledger)).map (fun c => (c, countOf (voteValues ledger) c))

/-- The majority-search loop: start from (None, 0) and replace the best
entry whenever a strictly greater count is seen (ties keep the earlier
entry). -/
def majorityFold (counts : List (String × Nat)) : Option String × Nat :=
  counts.foldl (fun best p => if p.2 > best.2 then (some p.1, p.2) else best)
    ((none : Option String), 0)

/-- The derived tally of a vote ledger. -/
structure Tally where
  counts : List (String × Nat)
  majorityChoice : Option String
  majorityCount : Nat
  totalVotes : Nat
  hasMajority : Bool
deriving DecidableEq, Repr

/-- The tally computed by every vote route. `majority_count > total_votes/2`
uses Python float division; for the integer ranges involved the comparison
is exact, so it is rendered as `2 * majority_count > total_votes`; the
source guards it with `if total_votes > 0 else False`. -/
def tally (ledger : List (String × String)) : Tally :=
  let counts := voteCounts ledger
  let m := majorityFold counts
  let total := ledger.length
  { counts := counts
    majorityChoice := m.1
    majorityCount := m.2
    totalVotes := total
    hasMajority := if total > 0 then decide (2 * m.2 > total) else false }

/-- The ledger built by a sequence of (voter, choice) submissions starting
from the empty dict of a fresh round. -/
def ledgerOfVotes (vs : List (String × String)) : List (String × String) :=
  vs.foldl (fun l v => submitVote l v.1 v.2) []

/-- The count of the most-voted choice (0 for an empty ledger). -/
def maxCount (ledger : List (String × String)) : Nat :=
  ((voteCounts ledger).map (·.2)).foldl max 0

/-! ## One-shot vote bonus

Each mini-game route awards a fixed 5-point bonus to the owning side's
cumulative score when a majority is first reached on the correct answer,
guarded by a per-round one-shot flag. Two flag disciplines occur in the
source: the identification routes (identify_ip, identify_action,
investigate_attack, identify_vulnerability, select_pivot_strategy) set the
flag only in the awarding branch, while select_attack sets its flag
(red_attack_selected) as soon as any majority is reached, correct or not.
-/

/-- The vote-processing slice of one mini-game: its ledger, its one-shot
flag, and the owning side's cumulative score. -/
structure MiniGame where
  ledger : List (String × String)
  resolved : Bool
  score : Int
deriving DecidableEq, Repr

/-- Whether one identification-style vote triggers the 5-point bonus:
majority reached, majority choice correct, flag not yet set. -/
def bonusFires (correct : String → Bool) (st : MiniGame) (v : String × String) :
    Bool :=
  let t := tally (submitVote st.ledger v.1 v.2)
  t.hasMajority
    && (match t.majorityChoice with | some c => correct c | none => false)
    && !st.resolved

/-- One identification-style vote (identify_ip and friends): record the
vote, then award `max(0, score + 5)` and set the flag when the bonus fires. -/
def identifyStep (correct : String → Bool) (st : MiniGame) (v : String × String) :
    MiniGame :=
  let fires := bonusFires correct st v
  { ledger := submitVote st.ledger v.1 v.2
    resolved := st.resolved || fires
    score := if fires then max 0 (st.score + 5) else st.score }

/-- Whether one select_attack vote triggers the bonus: same condition, but
against the `was_already_selected` snapshot of the flag. -/
def selectFires (correct : String → Bool) (st : MiniGame) (v : String × String) :
    Bool :=
  let t := tally (submitVote st.ledger v.1 v.2)
  t.hasMajority
    && (match t.majorityChoice with | some c => correct c | none => false)
    && !st.resolved

/-- One select_attack vote: the flag (red_attack_selected) is set by any
majority, correct or not; the bonus fires only if the flag was still clear. -/
def selectAttackStep (correct : String → Bool) (st : MiniGame) (v : String × String) :
    MiniGame :=
  let t := tally (submitVote st.ledger v.1 v.2)
  let fires := selectFires correct st v
  { ledger := submitVote st.ledger v.1 v.2
    resolved := st.resolved || t.hasMajority
    score := if fires then max 0 (st.score + 5) else st.score }

/-- How many votes of the sequence fire the identification bonus. -/
def identifyAwards (correct : String → Bool) : MiniGame → List (String × String) → Nat
  | _, [] => 0
  | st, v :: vs =>
      (if bonusFires correct st v then 1 else 0)
        + identifyAwards correct (identifyStep correct st v) vs

/-- How many votes of the sequence fire the select_attack bonus. -/
def selectAwards (correct : String → Bool) : MiniGame → List (String × String) → Nat
  | _, [] => 0
  | st, v :: vs =>
      (if selectFires correct st v then 1 else 0)
        + selectAwards correct (selectAttackStep correct st v) vs

/-! ## Score -/

/-- The red/blue slice of models.Score (MTTD/MTTC are reporting-only). -/
structure Score where
  red : Int
  blue : Int
deriving DecidableEq, Repr

/-- Score() defaults. -/
def scoreInit : Score := { red := 0, blue := 0 }

/-- The single score-write pattern of every route:
`current_score.side = max(0, current_score.side + delta)`. -/
def applyScoreDelta (s : Score) (side : Side) (delta : Int) : Score :=
  match side with
  | .red => { s with red := max 0 (s.red + delta) }
  | .blue => { s with blue := max 0 (s.blue + delta) }

/-- A whole sequence of scoring operations applied in order. -/
def applyScoreDeltas (s : Score) (ops : List (Side × Int)) : Score :=
  ops.foldl (fun acc op => applyScoreDelta acc op.1 op.2) s

/-! ## Turn/round state machine

models.GameState plus the ad-hoc attributes the routes add at round start
(turn counters, scan bookkeeping, the five vote ledgers and their one-shot
flags, blocked/scan IP lists). Every route's hasattr-guarded lazy
initialization writes the same defaults that game start writes, so the
fields are total here. Timestamps are seconds as natural numbers.
-/

/-- The mutable game state, with the lazily-added attributes made total. -/
structure GState where
  status : GameStatus
  round : Nat
  start_time : Option Nat
  timer : Option Nat
  current_scenario_id : Option String
  current_turn : Option Side
  turn_start_time : Option Nat
  turn_time_limit : Nat
  red_briefing_dismissed : Bool
  red_turn_count : Nat
  blue_turn_count : Nat
  max_turns_per_side : Option Nat
  red_attack_this_turn : Bool
  blue_action_this_turn : Bool
  red_scan_completed : Bool
  red_scan_tool : Option ScanToolType
  red_scan_success : Bool
  red_scan_ips : List String
  blocked_ips : List String
  blue_ip_votes : List (String × String)
  blue_ip_identified : Bool
  blue_action_votes : List (String × String)
  blue_action_identified : Bool
  blue_investigation_votes : List (String × String)
  blue_investigation_completed : Bool
  red_vulnerability_votes : List (String × String)
  red_vulnerability_identified : Bool
  red_pivot_votes : List (String × String)
  red_pivot_strategy_selected : Bool
  red_attack_votes : List (String × String)
  red_attack_selected : Bool
deriving DecidableEq, Repr

/-- The opposite side. -/
def otherSide : Side → Side
  | .red => .blue
  | .blue => .red

/-- Hand the turn to `s`: set current_turn, restart the turn clock, clear
the incoming side's per-turn guard (the source blocks clear
blue_action_this_turn when switching to blue, red_attack_this_turn when
switching to red). -/
def handTurnTo (g : GState) (s : Side) (now : Nat) : GState :=
  match s with
  | .blue =>
      { g with current_turn := some Side.blue, turn_start_time := some now
               blue_action_this_turn := false }
  | .red =>
      { g with current_turn := some Side.red, turn_start_time := some now
               red_attack_this_turn := false }

/-- The voluntary-completion turn-switch block duplicated across the attack,
action and vote routes: increment the completing side's counter, finish the
round when both sides have reached max_turns_per_side (no switch), otherwise
hand the turn to the other side. -/
def completeTurn (g : GState) (side : Side) (now : Nat) : GState :=
  let g :=
    match side with
    | .red => { g with red_turn_count := g.red_turn_count + 1 }
    | .blue => { g with blue_turn_count := g.blue_turn_count + 1 }
  match g.max_turns_per_side with
  | some maxTurns =>
      if g.red_turn_count ≥ maxTurns ∧ g.blue_turn_count ≥ maxTurns then
        { g with status := GameStatus.finished }
      else handTurnTo g (otherSide side) now
  | none => handTurnTo g (otherSide side) now

/-- timer.SCENARIO_DURATION_LIMIT (30 minutes). -/
def SCENARIO_DURATION_LIMIT : Nat := 1800

/-- One iteration of timer.timer_loop at wall-clock second `now`: update the
elapsed timer, force-switch the active side when the turn clock has expired
(clearing both per-turn guards, leaving the turn counters alone), then end
the round when the overall duration cap is reached. Broadcasts are external
effects and omitted. -/
def timerTick (g : GState) (now : Nat) : GState :=
  match g.start_time with
  | none => g
  | some t0 =>
      if g.status = GameStatus.running ∧ g.red_briefing_dismissed then
        let elapsed := now - t0
        let g := { g with timer := some elapsed }
        let g :=
          match g.current_turn, g.turn_start_time with
          | some turn, some ts =>
              if now - ts ≥ g.turn_time_limit then
                { g with current_turn := some (otherSide turn)
                         turn_start_time := some now
                         red_attack_this_turn := false
                         blue_action_this_turn := false }
              else g
          | _, _ => g
        if elapsed ≥ SCENARIO_DURATION_LIMIT then
          { g with status := GameStatus.finished }
        else g
      else g

/-! ## Scenario catalog and engine state -/

/-- The slice of models.Scenario the engine reads. -/
structure Scenario where
  id : String
  attacks : List Attack
  required_scan_tool : Option ScanToolType
deriving DecidableEq, Repr

/-- scenarios_cache.get. -/
def lookupScenario (cache : List Scenario) (sid : String) : Option Scenario :=
  cache.find? (fun s => s.id == sid)

/-- One entry of the launched_attacks list (timestamps dropped). -/
structure LaunchedAttack where
  attack_id : String
  attack : Attack
  alerts : List Alert
  player_name : String
  source_ip : String
  is_blocked : Bool
deriving DecidableEq, Repr

/-- The shared mutable state the attack/action/scan routes operate on. -/
structure EngineState where
  game : GState
  score : Score
  launched_attacks : List LaunchedAttack
  blue_actions : List BlueAction
deriving DecidableEq, Repr

/-- alerts.generate_alerts without its random parts: the fixed ordered
alert templates per attack type (source, severity, summary). Timestamp
jitter, IOC fields and hint refs are dropped; the random noise alerts
(whose summary is always "Benign traffic anomaly") are supplied separately
by callers. -/
def generateAlertsCore (attack : Attack) : List Alert :=
  match attack.attack_type with
  | .RCE =>
      [⟨"WAF", "high", "POST request to /plugins/legacy.php with base64-encoded payload"⟩,
       ⟨"IDS", "critical", "Command execution pattern detected: /bin/sh spawned by PHP-FPM"⟩,
       ⟨"Proxy", "high", "Outbound network connection from web-1 to external IP on port 4444"⟩,
       ⟨"EDR", "high", "File system write detected: /tmp/.backdoor.php created"⟩]
  | .SQLI =>
      [⟨"WAF", "medium", "SQL injection pattern detected"⟩,
       ⟨"DB", "high", "Anomalous database query"⟩]
  | .BRUTEFORCE =>
      [⟨"IDS", "medium", "Multiple failed login attempts"⟩,
       ⟨"WAF", "low", "Rate limit threshold approached"⟩]
  | .PHISHING =>
      [⟨"Mail GW", "medium", "Suspicious email attachment"⟩,
       ⟨"EDR", "high", "Macro execution detected"⟩]
  | .LATERALMOVE =>
      [⟨"EDR", "high", "Lateral movement via RPC"⟩,
       ⟨"AD", "critical", "Privilege escalation detected"⟩]
  | .EXFIL =>
      [⟨"Proxy", "high", "Large data transfer to external IP"⟩,
       ⟨"Cloud", "medium", "Unauthorized bucket access"⟩]

/-- Equality of Except results is decidable when both components are. -/
instance exceptDecEq {ε α : Type} [DecidableEq ε] [DecidableEq α] :
    DecidableEq (Except ε α) := fun x y =>
  match x, y with
  | .error a, .error b =>
      if h : a = b then isTrue (by rw [h])
      else isFalse (by intro he; cases he; exact h rfl)
  | .ok a, .ok b =>
      if h : a = b then isTrue (by rw [h])
      else isFalse (by intro he; cases he; exact h rfl)
  | .error _, .ok _ => isFalse (by intro h; cases h)
  | .ok _, .error _ => isFalse (by intro h; cases h)

/-- The precondition failures of routes/attacks.launch_attack. -/
inductive LaunchErr
  | gameNotRunning
  | notRedTurn
  | alreadyAttackedThisTurn
  | noScenarioSelected
  | scenarioNotFound
  | attackNotFound
  | scanRequired
deriving DecidableEq, Repr

/-- The launch-time classification returned by launch_attack. -/
inductive LaunchResult
  | blocked
  | miss
  | pending
deriving DecidableEq, Repr

/-- routes/attacks.launch_attack: the precondition checks in source order,
then the blocked-source-IP short-circuit (+8 blue, turn consumed and handed
to blue without a max-turn check), the scan gate (which only asks whether
any scan was completed), and the main path: record the launch with its
generated alerts, consume the per-turn guard, hand the turn to blue via the
shared completion block, apply the attack-choice points (+3 correct, −2
wrong) and classify an incorrect attack as a final miss at launch time.
The random source IP and noise alerts are parameters; `now` abstracts
datetime.utcnow(). -/
def launchAttack (st : EngineState) (scenarios : List Scenario)
    (attackId : String) (player : String) (sourceIp : String)
    (noise : List Alert) (now : Nat) :
    Except LaunchErr LaunchResult × EngineState :=
  if st.game.status ≠ GameStatus.running then (.error .gameNotRunning, st)
  else if st.game.current_turn ≠ some Side.red then (.error .notRedTurn, st)
  else if st.game.red_attack_this_turn then (.error .alreadyAttackedThisTurn, st)
  else
    match st.game.current_scenario_id with
    | none => (.error .noScenarioSelected, st)
    | some sid =>
        match lookupScenario scenarios sid with
        | none => (.error .scenarioNotFound, st)
        | some scenario =>
            match scenario.attacks.find? (fun a => a.id == attackId) with
            | none => (.error .attackNotFound, st)
            | some attack =>
                if sourceIp ∈ st.game.blocked_ips then
                  let score := applyScoreDelta st.score Side.blue 8
                  let game := { st.game with
                    red_turn_count := st.game.red_turn_count + 1
                    current_turn := some Side.blue
                    turn_start_time := some now
                    blue_action_this_turn := false
                    red_attack_this_turn := true }
                  (.ok .blocked, { st with score := score, game := game })
                else if attack.requires_scan ∧ ¬ st.game.red_scan_completed then
                  (.error .scanRequired, st)
                else
                  let alerts := generateAlertsCore attack ++ noise
                  let launched := st.launched_attacks ++
                    [⟨attack.id, attack, alerts, player, sourceIp, false⟩]
                  let game :=
                    completeTurn { st.game with red_attack_this_turn := true }
                      Side.red now
                  let choicePoints : Int := if attack.is_correct_choice then 3 else -2
                  let score := applyScoreDelta st.score Side.red choicePoints
                  let res := if attack.is_correct_choice then LaunchResult.pending
                             else LaunchResult.miss
                  (.ok res, { st with game := game, score := score
                                      launched_attacks := launched })

/-- The precondition failures of routes/actions.submit_action. -/
inductive ActionErr
  | gameNotRunning
  | notBlueTurn
  | alreadyActedThisTurn
deriving DecidableEq, Repr

/-- routes/actions.submit_action: the precondition checks in source order,
then the action is recorded (block_ip additionally adds the target to
blocked_ips and awards +3 blue when it matches a known scan IP). If no
attack was ever launched this round, the turn is handed back to red via the
shared completion block. Otherwise the most recent launched attack is
resolved against the full blue-action list with the tiered resolver (the
stored alert list is always non-empty, which is the branch resolve_outcome
takes), its score deltas are applied red-then-blue, and the turn is handed
back to red; if the scenario or the attack cannot be found the source skips
both resolution and turn switch. -/
def submitAction (st : EngineState) (scenarios : List Scenario)
    (action : BlueAction) (now : Nat) : Except ActionErr Unit × EngineState :=
  if st.game.status ≠ GameStatus.running then (.error .gameNotRunning, st)
  else if st.game.current_turn ≠ some Side.blue then (.error .notBlueTurn, st)
  else if st.game.blue_action_this_turn then (.error .alreadyActedThisTurn, st)
  else
    let game := { st.game with blue_action_this_turn := true }
    let game :=
      if action.type = BlueActionType.block_ip ∧ action.target ∉ game.blocked_ips then
        { game with blocked_ips := game.blocked_ips ++ [action.target] }
      else game
    let score :=
      if action.type = BlueActionType.block_ip ∧ action.target ∈ game.red_scan_ips then
        applyScoreDelta st.score Side.blue 3
      else st.score
    let blue_actions := st.blue_actions ++ [action]
    match st.launched_attacks.getLast? with
    | none =>
        let game := completeTurn game Side.blue now
        (.ok (), { st with game := game, score := score, blue_actions := blue_actions })
    | some attackInfo =>
        match st.game.current_scenario_id.bind (lookupScenario scenarios) with
        | none =>
            (.ok (), { st with game := game, score := score, blue_actions := blue_actions })
        | some scenario =>
            match scenario.attacks.find? (fun a => a.id == attackInfo.attack_id) with
            | none =>
                (.ok (), { st with game := game, score := score
                                   blue_actions := blue_actions })
            | some attack =>
                let outcome := resolveOutcomeTiered attack blue_actions attackInfo.alerts
                let score :=
                  applyScoreDelta
                    (applyScoreDelta score Side.red outcome.score_delta_red)
                    Side.blue outcome.score_delta_blue
                let game := completeTurn game Side.blue now
                (.ok (), { st with game := game, score := score
                                   blue_actions := blue_actions })

/-- routes/scans.run_scan, reduced to its state and score effects (its
precondition checks — game running, scenario selected and matching — reject
before these writes): any completed scan, whatever the tool, records the
generated source IP, sets red_scan_completed, stores the tool, and applies
the scan-choice points: +2 when the tool matches the scenario's
required_scan_tool, −1 when it is wrong but linked to some attack, nothing
for a purely informational scan. -/
def runScan (st : EngineState) (scenario : Scenario) (tool : ScanToolType)
    (sourceIp : String) : EngineState :=
  let isCorrectTool := scenario.required_scan_tool = some tool
  let isLinkedToAttack := scenario.attacks.any fun a =>
    a.requires_scan && decide (a.required_scan_tool = some tool)
  let game := { st.game with
    red_scan_ips :=
      if sourceIp ∈ st.game.red_scan_ips then st.game.red_scan_ips
      else st.game.red_scan_ips ++ [sourceIp]
    red_scan_completed := true
    red_scan_tool := some tool
    red_scan_success := isCorrectTool }
  let score :=
    if isCorrectTool then applyScoreDelta st.score Side.red 2
    else if isLinkedToAttack then applyScoreDelta st.score Side.red (-1)
    else st.score
  { st with game := game, score := score }

/-! ## Concrete fixtures

A small concrete scenario used as witness input: one incorrect RCE attack
(no scan gate) and one correct RCE attack gated on an OWASP ZAP scan, with
the game mid-round on red's turn after a completed (mismatched-tool) Nmap
scan. -/

/-- An attack that is not the scenario's correct choice. -/
def atkWrong : Attack :=
  { id := "atk-wrong", attack_type := .RCE, from_node := "internet", to_node := "web-1"
    is_correct_choice := false, requires_scan := false, required_scan_tool := none }

/-- The scenario's correct attack, gated on an OWASP ZAP scan. -/
def atkRight : Attack :=
  { id := "atk-right", attack_type := .RCE, from_node := "internet", to_node := "web-1"
    is_correct_choice := true, requires_scan := true
    required_scan_tool := some .OWASP_ZAP }

/-- A two-attack scenario whose required scan tool is OWASP ZAP. -/
def sampleScenario : Scenario := ⟨"s1", [atkWrong, atkRight], some .OWASP_ZAP⟩

/-- A running game on red's turn; a scan has been completed, but with Nmap,
not the scenario's required OWASP ZAP. -/
def sampleGame : GState :=
  { status := .running, round := 1, start_time := some 0, timer := some 0
    current_scenario_id := some "s1", current_turn := some .red
    turn_start_time := some 0, turn_time_limit := 300
    red_briefing_dismissed := true, red_turn_count := 0, blue_turn_count := 0
    max_turns_per_side := none, red_attack_this_turn := false
    blue_action_this_turn := false, red_scan_completed := true
    red_scan_tool := some .NMAP, red_scan_success := false
    red_scan_ips := [], blocked_ips := []
    blue_ip_votes := [], blue_ip_identified := false
    blue_action_votes := [], blue_action_identified := false
    blue_investigation_votes := [], blue_investigation_completed := false
    red_vulnerability_votes := [], red_vulnerability_identified := false
    red_pivot_votes := [], red_pivot_strategy_selected := false
    red_attack_votes := [], red_attack_selected := false }

/-- The engine state bundling the sample game with zero scores and empty
launch/action lists. -/
def sampleState : EngineState :=
  { game := sampleGame, score := scoreInit, launched_attacks := [], blue_actions := [] }

/-- One noise alert as the generator appends (random source from the noise
pool, fixed benign summary that matches no success keyword). -/
def noiseAlert : Alert := ⟨"IDS", "low", "Benign traffic anomaly"⟩

/-- A defending action with no entry in any scoring matrix (open_ticket on
an unrelated target). -/
def ticketAction : BlueAction := ⟨"a1", .open_ticket, "web-9", ""⟩

/-- The sample round: red launches the incorrect attack. -/
def sampleLaunch : Except LaunchErr LaunchResult × EngineState :=
  launchAttack sampleState [sampleScenario] "atk-wrong" "redPlayer" "198.51.100.9"
    [noiseAlert] 10

/-- ... and blue then submits one ineffective action, which triggers
resolution of the launched (incorrect) attack. -/
def sampleSubmit : Except ActionErr Unit × EngineState :=
  submitAction sampleLaunch.2 [sampleScenario] ticketAction 20

/-! ## Theorems -/

/-- The Bool condition of the red-points branch agrees with its
propositional reading. -/
lemma red_if_eq (s : Bool) (r : OverallResult) (p : Int) :
    (if s && (r == OverallResult.hit || r == OverallResult.unsuccessful_block
        || r == OverallResult.unsuccessful_mitigation) then p else 0) =
    (if s = true ∧ (r = OverallResult.hit ∨ r = OverallResult.unsuccessful_block
        ∨ r = OverallResult.unsuccessful_mitigation) then p else 0) := by
  cases s <;> cases r <;> simp

/-- C1: for every attack, defending-action list and alert list, the red
component of the tiered resolution's score deltas equals the attack type's
fixed execution value (RCE 10, SQLi 8, Bruteforce 5, Phishing 3,
LateralMove 3, Exfil 5) exactly when attack_succeeded is true and the
overall result is hit, unsuccessful_block or unsuccessful_mitigation, and
is 0 in every other case. -/
theorem c1_red_execution_points (attack : Attack) (blue_actions : List BlueAction)
    (alerts : List Alert) :
    (resolveOutcomeTiered attack blue_actions alerts).score_delta_red =
      if (resolveOutcomeTiered attack blue_actions alerts).attack_succeeded = true
          ∧ ((resolveOutcomeTiered attack blue_actions alerts).result = OverallResult.hit
             ∨ (resolveOutcomeTiered attack blue_actions alerts).result = OverallResult.unsuccessful_block
             ∨ (resolveOutcomeTiered attack blue_actions alerts).result = OverallResult.unsuccessful_mitigation) then
        (match attack.attack_type with
         | .RCE => (10 : Int)
         | .SQLI => 8
         | .BRUTEFORCE => 5
         | .PHISHING => 3
         | .LATERALMOVE => 3
         | .EXFIL => 5)
      else 0 := by
  exact red_if_eq _ _ _

/-- A filter is non-empty exactly when some member satisfies the predicate. -/
lemma filter_nonempty_iff (l : List ActionEvaluation) (p : ActionEvaluation → Bool) :
    ((l.filter p).isEmpty = false) ↔ ∃ e ∈ l, p e = true := by
  simp [List.isEmpty_eq_false_iff_exists_mem, List.mem_filter]

/-- The Python truthiness chain of the overall classification agrees with
its propositional reading. -/
lemma overall_if_eq (evals : List ActionEvaluation) (acts : List BlueAction) :
    (if !(evals.filter (fun e => e.effectiveness == Effectiveness.optimal)).isEmpty
       then OverallResult.successful_block
     else if !(evals.filter (fun e => e.effectiveness == Effectiveness.effective)).isEmpty
       then OverallResult.successful_mitigation
     else if evals.any (fun e => e.points > 0) then OverallResult.unsuccessful_mitigation
     else if acts.isEmpty then OverallResult.hit
     else OverallResult.unsuccessful_block)
    = (if ∃ e ∈ evals, e.effectiveness = Effectiveness.optimal then OverallResult.successful_block
       else if ∃ e ∈ evals, e.effectiveness = Effectiveness.effective then OverallResult.successful_mitigation
       else if ∃ e ∈ evals, e.points > 0 then OverallResult.unsuccessful_mitigation
       else if acts = [] then OverallResult.hit
       else OverallResult.unsuccessful_block) := by
  simp only [Bool.not_eq_true', filter_nonempty_iff, beq_iff_eq, List.any_eq_true,
    decide_eq_true_eq, List.isEmpty_iff]

/-- C2: the overall result of tiered resolution is successful_block when
some evaluation is optimal; else successful_mitigation when some evaluation
is effective; else unsuccessful_mitigation when some evaluation has strictly
positive points; else hit when the defending-action list is empty; else
unsuccessful_block. -/
theorem c2_overall_classification (attack : Attack) (blue_actions : List BlueAction)
    (alerts : List Alert) :
    (resolveOutcomeTiered attack blue_actions alerts).result =
      (if ∃ e ∈ (resolveOutcomeTiered attack blue_actions alerts).action_evaluations,
            e.effectiveness = Effectiveness.optimal then OverallResult.successful_block
       else if ∃ e ∈ (resolveOutcomeTiered attack blue_actions alerts).action_evaluations,
            e.effectiveness = Effectiveness.effective then OverallResult.successful_mitigation
       else if ∃ e ∈ (resolveOutcomeTiered attack blue_actions alerts).action_evaluations,
            e.points > 0 then OverallResult.unsuccessful_mitigation
       else if blue_actions = [] then OverallResult.hit
       else OverallResult.unsuccessful_block) := by
  exact overall_if_eq _ _

/-- The strict-greater majority fold tracks the running maximum count. -/
lemma majorityFold_snd (counts : List (String × Nat)) :
    ∀ init : Option String × Nat,
      (counts.foldl (fun best p => if p.2 > best.2 then (some p.1, p.2) else best) init).2
        = counts.foldl (fun b p => max b p.2) init.2 := by
  induction counts with
  | nil => intro init; rfl
  | cons p t ih =>
      intro init
      simp only [List.foldl_cons]
      rw [ih]
      congr 1
      simp only [Nat.max_def]
      split <;> split <;> omega

/-- The tally's majority count is the count of the most-voted choice. -/
lemma tally_majorityCount_eq (ledger : List (String × String)) :
    (tally ledger).majorityCount = maxCount ledger := by
  show (majorityFold (voteCounts ledger)).2 = maxCount ledger
  rw [majorityFold, majorityFold_snd, maxCount, List.foldl_map]

/-- hasMajority holds exactly when twice the top count exceeds the total. -/
lemma tally_hasMajority_iff (ledger : List (String × String)) :
    (tally ledger).hasMajority = true ↔ 2 * maxCount ledger > (tally ledger).totalVotes := by
  have hm : (tally ledger).majorityCount = maxCount ledger := tally_majorityCount_eq ledger
  show (if ledger.length > 0 then decide (2 * (majorityFold (voteCounts ledger)).2 > ledger.length) else false) = true
    ↔ 2 * maxCount ledger > ledger.length
  have hm2 : (majorityFold (voteCounts ledger)).2 = maxCount ledger := hm
  rw [hm2]
  by_cases h : ledger.length > 0
  · simp [h]
  · have hnil : ledger = [] := List.length_eq_zero.mp (by omega)
    subst hnil
    simp [maxCount, voteCounts, voteValues, firstSeen]

/-- C4: after any sequence of votes, hasMajority holds exactly when the
most-voted choice's count strictly exceeds half the votes cast (the tally's
majorityCount is that top count); in particular 2 of 3 votes is a majority,
1 of 2 is not, and an exact 2-2 tie is not. -/
theorem c4_majority_strict :
    (∀ vs : List (String × String),
        (tally (ledgerOfVotes vs)).majorityCount = maxCount (ledgerOfVotes vs)
        ∧ ((tally (ledgerOfVotes vs)).hasMajority = true ↔
            2 * maxCount (ledgerOfVotes vs) > (tally (ledgerOfVotes vs)).totalVotes))
    ∧ (tally (ledgerOfVotes [("p1", "A"), ("p2", "B"), ("p3", "A")])).hasMajority = true
    ∧ (tally (ledgerOfVotes [("p1", "A"), ("p2", "B")])).hasMajority = false
    ∧ (tally (ledgerOfVotes [("p1", "A"), ("p2", "A"), ("p3", "B"), ("p4", "B")])).hasMajority = false := by
  refine ⟨fun vs => ⟨tally_majorityCount_eq _, tally_hasMajority_iff _⟩, ?_, ?_, ?_⟩ <;> decide

/-- After a vote by `v`, the ledger has an entry keyed `v`. -/
lemma submitVote_any (l : List (String × String)) (v c : String) :
    (submitVote l v c).any (fun p => p.1 == v) = true := by
  unfold submitVote
  split
  · rename_i h
    rw [List.any_eq_true] at h ⊢
    obtain ⟨p, hp, hpv⟩ := h
    refine ⟨(v, c), List.mem_map.2 ⟨p, hp, by simp [hpv]⟩, by simp⟩
  · simp

/-- Submitting the identical vote twice leaves the ledger of one submission. -/
lemma submitVote_idem (l : List (String × String)) (v c : String) :
    submitVote (submitVote l v c) v c = submitVote l v c := by
  have h2 := submitVote_any l v c
  conv_lhs => rw [submitVote]
  rw [if_pos h2]
  by_cases h : l.any (fun p => p.1 == v) = true
  · rw [submitVote, if_pos h, List.map_map]
    apply List.map_congr_left
    intro p _
    by_cases hp : p.1 = v
    · simp [Function.comp_apply, hp]
    · simp [Function.comp_apply, hp]
  · rw [submitVote, if_neg h, List.map_append]
    rw [List.any_eq_true] at h
    push_neg at h
    congr 1
    · have hid : ∀ p ∈ l, (fun p : String × String =>
          if p.1 == v then (v, c) else p) p = id p := by
        intro p hp
        have hne : p.1 ≠ v := by simpa using h p hp
        simp [hne]
      calc List.map (fun p : String × String => if p.1 == v then (v, c) else p) l
          = List.map id l := List.map_congr_left hid
        _ = l := List.map_id l
    · simp

/-- C9: a vote overwrites the voter's previous entry and never accumulates:
submitting the identical vote twice from the same voter yields the same
ledger and the same vote counts as submitting it once. -/
theorem c9_vote_idempotent (l : List (String × String)) (voter choice : String) :
    submitVote (submitVote l voter choice) voter choice = submitVote l voter choice
    ∧ voteCounts (submitVote (submitVote l voter choice) voter choice)
        = voteCounts (submitVote l voter choice) := by
  have h := submitVote_idem l voter choice
  exact ⟨h, by rw [h]⟩

/-- With the one-shot flag set, no further identification bonus ever fires. -/
lemma identifyAwards_of_resolved (correct : String → Bool) (st : MiniGame)
    (h : st.resolved = true) (vs : List (String × String)) :
    identifyAwards correct st vs = 0 := by
  induction vs generalizing st with
  | nil => rfl
  | cons v vs ih =>
      have hf : bonusFires correct st v = false := by
        simp [bonusFires, h]
      have hres : (identifyStep correct st v).resolved = true := by
        simp [identifyStep, h]
      simp [identifyAwards, hf, ih _ hres]

/-- The identification bonus fires at most once over any vote sequence. -/
lemma identifyAwards_le_one (correct : String → Bool) (st : MiniGame)
    (vs : List (String × String)) :
    identifyAwards correct st vs ≤ 1 := by
  induction vs generalizing st with
  | nil => simp [identifyAwards]
  | cons v vs ih =>
      by_cases hf : bonusFires correct st v = true
      · have hres : (identifyStep correct st v).resolved = true := by
          simp [identifyStep, hf]
        simp [identifyAwards, hf, identifyAwards_of_resolved correct _ hres vs]
      · simp only [identifyAwards, Bool.not_eq_true] at hf ⊢
        simp [hf]
        exact ih _

/-- The cumulative score after a vote sequence is the start plus 5 per
fired identification bonus (the max-with-zero clamp is inert for
non-negative scores). -/
lemma identify_score_run (correct : String → Bool) (vs : List (String × String))
    (st : MiniGame) (h0 : 0 ≤ st.score) :
    (vs.foldl (identifyStep correct) st).score = st.score + 5 * identifyAwards correct st vs := by
  induction vs generalizing st with
  | nil => simp [identifyAwards]
  | cons v vs ih =>
      simp only [List.foldl_cons, identifyAwards]
      by_cases hf : bonusFires correct st v = true
      · have hs : (identifyStep correct st v).score = st.score + 5 := by
          simp [identifyStep, hf]
          omega
        rw [ih _ (by rw [hs]; omega), hs]
        simp [hf]
        omega
      · have hs : (identifyStep correct st v).score = st.score := by
          simp [identifyStep, hf]
        rw [ih _ (by rw [hs]; omega), hs]
        simp [hf]

/-- With red_attack_selected set, no select_attack bonus ever fires. -/
lemma selectAwards_of_resolved (correct : String → Bool) (st : MiniGame)
    (h : st.resolved = true) (vs : List (String × String)) :
    selectAwards correct st vs = 0 := by
  induction vs generalizing st with
  | nil => rfl
  | cons v vs ih =>
      have hf : selectFires correct st v = false := by
        simp [selectFires, h]
      have hres : (selectAttackStep correct st v).resolved = true := by
        simp [selectAttackStep, h]
      simp [selectAwards, hf, ih _ hres]

/-- A firing select_attack bonus implies the majority was reached. -/
lemma selectFires_hasMajority (correct : String → Bool) (st : MiniGame)
    (v : String × String) (hf : selectFires correct st v = true) :
    (tally (submitVote st.ledger v.1 v.2)).hasMajority = true := by
  simp only [selectFires, Bool.and_eq_true] at hf
  exact hf.1.1

/-- The select_attack bonus fires at most once over any vote sequence. -/
lemma selectAwards_le_one (correct : String → Bool) (st : MiniGame)
    (vs : List (String × String)) :
    selectAwards correct st vs ≤ 1 := by
  induction vs generalizing st with
  | nil => simp [selectAwards]
  | cons v vs ih =>
      by_cases hf : selectFires correct st v = true
      · have hres : (selectAttackStep correct st v).resolved = true := by
          simp [selectAttackStep, selectFires_hasMajority correct st v hf]
        simp [selectAwards, hf, selectAwards_of_resolved correct _ hres vs]
      · simp only [selectAwards, Bool.not_eq_true] at hf ⊢
        simp [hf]
        exact ih _

/-- Score accounting for the select_attack variant. -/
lemma select_score_run (correct : String → Bool) (vs : List (String × String))
    (st : MiniGame) (h0 : 0 ≤ st.score) :
    (vs.foldl (selectAttackStep correct) st).score = st.score + 5 * selectAwards correct st vs := by
  induction vs generalizing st with
  | nil => simp [selectAwards]
  | cons v vs ih =>
      simp only [List.foldl_cons, selectAwards]
      by_cases hf : selectFires correct st v = true
      · have hs : (selectAttackStep correct st v).score = st.score + 5 := by
          simp [selectAttackStep, hf]
          omega
        rw [ih _ (by rw [hs]; omega), hs]
        simp [hf]
        omega
      · have hs : (selectAttackStep correct st v).score = st.score := by
          simp [selectAttackStep, hf]
        rw [ih _ (by rw [hs]; omega), hs]
        simp [hf]

/-- C5: starting a round with an empty ledger, a clear one-shot flag and a
non-negative owning-side score, any sequence of votes fires the fixed
5-point bonus at most once, and the final score is the start plus exactly 5
per fired bonus — both for the identification-style flags
(blue_ip_identified, blue_investigation_completed, ...) and for the
select_attack flag (red_attack_selected). -/
theorem c5_bonus_at_most_once (correct : String → Bool)
    (vs : List (String × String)) (s : Int) (h0 : 0 ≤ s) :
    (identifyAwards correct ⟨[], false, s⟩ vs ≤ 1
      ∧ (vs.foldl (identifyStep correct) ⟨[], false, s⟩).score
          = s + 5 * identifyAwards correct ⟨[], false, s⟩ vs)
    ∧ (selectAwards correct ⟨[], false, s⟩ vs ≤ 1
      ∧ (vs.foldl (selectAttackStep correct) ⟨[], false, s⟩).score
          = s + 5 * selectAwards correct ⟨[], false, s⟩ vs) :=
  ⟨⟨identifyAwards_le_one correct _ vs, identify_score_run correct vs _ h0⟩,
   ⟨selectAwards_le_one correct _ vs, select_score_run correct vs _ h0⟩⟩

/-- C5 witness: two unanimous correct votes award the bonus exactly once. -/
theorem c5_bonus_at_most_once_witness :
    (identifyAwards (fun c => c == "A") ⟨[], false, 0⟩ [("p", "A"), ("q", "A")] ≤ 1
      ∧ ([("p", "A"), ("q", "A")].foldl (identifyStep (fun c => c == "A")) ⟨[], false, 0⟩).score
          = 0 + 5 * identifyAwards (fun c => c == "A") ⟨[], false, 0⟩ [("p", "A"), ("q", "A")])
    ∧ (selectAwards (fun c => c == "A") ⟨[], false, 0⟩ [("p", "A"), ("q", "A")] ≤ 1
      ∧ ([("p", "A"), ("q", "A")].foldl (selectAttackStep (fun c => c == "A")) ⟨[], false, 0⟩).score
          = 0 + 5 * selectAwards (fun c => c == "A") ⟨[], false, 0⟩ [("p", "A"), ("q", "A")]) :=
  c5_bonus_at_most_once (fun c => c == "A") [("p", "A"), ("q", "A")] 0 (by decide)

/-- One clamped delta keeps both cumulative scores non-negative. -/
lemma scoreNonneg_apply (s : Score) (side : Side) (d : Int)
    (h : 0 ≤ s.red ∧ 0 ≤ s.blue) :
    0 ≤ (applyScoreDelta s side d).red ∧ 0 ≤ (applyScoreDelta s side d).blue := by
  obtain ⟨hr, hb⟩ := h
  cases side
  · exact ⟨le_max_left _ _, hb⟩
  · exact ⟨hr, le_max_left _ _⟩

/-- Any sequence of clamped deltas keeps both scores non-negative. -/
lemma applyScoreDeltas_nonneg (ops : List (Side × Int)) (s : Score)
    (h : 0 ≤ s.red ∧ 0 ≤ s.blue) :
    0 ≤ (applyScoreDeltas s ops).red ∧ 0 ≤ (applyScoreDeltas s ops).blue := by
  induction ops generalizing s with
  | nil => exact h
  | cons op t ih => exact ih _ (scoreNonneg_apply s op.1 op.2 h)

/-- launch_attack (choice points, blocked-IP bonus) preserves score
non-negativity. -/
lemma launchAttack_score_nonneg (st : EngineState) (scenarios : List Scenario)
    (attackId player sourceIp : String) (noise : List Alert) (now : Nat)
    (h : 0 ≤ st.score.red ∧ 0 ≤ st.score.blue) :
    0 ≤ (launchAttack st scenarios attackId player sourceIp noise now).2.score.red
    ∧ 0 ≤ (launchAttack st scenarios attackId player sourceIp noise now).2.score.blue := by
  unfold launchAttack
  repeat' split
  all_goals
    first
      | exact h
      | exact scoreNonneg_apply _ _ _ h

/-- submit_action (scan-IP bonus, resolution deltas) preserves score
non-negativity. -/
lemma submitAction_score_nonneg (st : EngineState) (scenarios : List Scenario)
    (action : BlueAction) (now : Nat)
    (h : 0 ≤ st.score.red ∧ 0 ≤ st.score.blue) :
    0 ≤ (submitAction st scenarios action now).2.score.red
    ∧ 0 ≤ (submitAction st scenarios action now).2.score.blue := by
  unfold submitAction
  dsimp only
  repeat' split
  all_goals
    first
      | exact h
      | exact scoreNonneg_apply _ _ _ h
      | exact scoreNonneg_apply _ _ _ (scoreNonneg_apply _ _ _ h)
      | exact scoreNonneg_apply _ _ _ (scoreNonneg_apply _ _ _ (scoreNonneg_apply _ _ _ h))

/-- run_scan (scan-choice points) preserves score non-negativity. -/
lemma runScan_score_nonneg (st : EngineState) (scenario : Scenario)
    (tool : ScanToolType) (sourceIp : String)
    (h : 0 ≤ st.score.red ∧ 0 ≤ st.score.blue) :
    0 ≤ (runScan st scenario tool sourceIp).score.red
    ∧ 0 ≤ (runScan st scenario tool sourceIp).score.blue := by
  unfold runScan
  dsimp only
  repeat' split
  all_goals
    first
      | exact h
      | exact scoreNonneg_apply _ _ _ h

/-- C6: cumulative scores stay non-negative: any sequence of clamped score
deltas starting from Score() keeps both sides at or above zero, and each
scoring route (attack launch, defending-action submission with resolution
deltas, scan) preserves non-negativity of both cumulative scores whatever
the sign or magnitude of the deltas it applies. -/
theorem c6_score_nonneg :
    (∀ ops : List (Side × Int),
        0 ≤ (applyScoreDeltas scoreInit ops).red
        ∧ 0 ≤ (applyScoreDeltas scoreInit ops).blue)
    ∧ (∀ (st : EngineState) (scenarios : List Scenario)
          (attackId player sourceIp : String) (noise : List Alert) (now : Nat),
        0 ≤ st.score.red ∧ 0 ≤ st.score.blue →
        0 ≤ (launchAttack st scenarios attackId player sourceIp noise now).2.score.red
        ∧ 0 ≤ (launchAttack st scenarios attackId player sourceIp noise now).2.score.blue)
    ∧ (∀ (st : EngineState) (scenarios : List Scenario) (action : BlueAction) (now : Nat),
        0 ≤ st.score.red ∧ 0 ≤ st.score.blue →
        0 ≤ (submitAction st scenarios action now).2.score.red
        ∧ 0 ≤ (submitAction st scenarios action now).2.score.blue)
    ∧ (∀ (st : EngineState) (scenario : Scenario) (tool : ScanToolType) (sourceIp : String),
        0 ≤ st.score.red ∧ 0 ≤ st.score.blue →
        0 ≤ (runScan st scenario tool sourceIp).score.red
        ∧ 0 ≤ (runScan st scenario tool sourceIp).score.blue) :=
  ⟨fun ops => applyScoreDeltas_nonneg ops scoreInit ⟨le_refl 0, le_refl 0⟩,
   fun st scen aid pl ip noise now h => launchAttack_score_nonneg st scen aid pl ip noise now h,
   fun st scen action now h => submitAction_score_nonneg st scen action now h,
   fun st scen tool ip h => runScan_score_nonneg st scen tool ip h⟩

/-- C6 witness: the route conjuncts applied at the concrete sample state. -/
theorem c6_score_nonneg_witness :
    (0 ≤ (launchAttack sampleState [sampleScenario] "atk-wrong" "redPlayer"
        "198.51.100.9" [noiseAlert] 10).2.score.red
      ∧ 0 ≤ (launchAttack sampleState [sampleScenario] "atk-wrong" "redPlayer"
        "198.51.100.9" [noiseAlert] 10).2.score.blue)
    ∧ (0 ≤ (submitAction sampleState [sampleScenario] ticketAction 20).2.score.red
      ∧ 0 ≤ (submitAction sampleState [sampleScenario] ticketAction 20).2.score.blue)
    ∧ (0 ≤ (runScan sampleState sampleScenario .NMAP "198.51.100.9").score.red
      ∧ 0 ≤ (runScan sampleState sampleScenario .NMAP "198.51.100.9").score.blue) :=
  ⟨c6_score_nonneg.2.1 sampleState [sampleScenario] "atk-wrong" "redPlayer"
      "198.51.100.9" [noiseAlert] 10 (by decide),
   c6_score_nonneg.2.2.1 sampleState [sampleScenario] ticketAction 20 (by decide),
   c6_score_nonneg.2.2.2 sampleState sampleScenario .NMAP "198.51.100.9" (by decide)⟩

/-- C3 (code bug): an attack with is_correct_choice = false is classified
as a final miss at launch time with no red award (only the −2 choice
penalty, clamped at zero here), yet it remains the most recent launched
attack, and when blue submits any action the tiered resolver — which never
consults is_correct_choice — re-resolves it: the RCE alert templates always
contain the "command execution" success keyword, the lone ineffective
action yields unsuccessful_block, and red is awarded the 10 RCE execution
points at resolution time. -/
theorem c3_incorrect_attack_later_award :
    atkWrong.is_correct_choice = false
    ∧ sampleLaunch.1 = .ok .miss
    ∧ sampleLaunch.2.score.red = 0
    ∧ sampleLaunch.2.launched_attacks.getLast?
        = some ⟨"atk-wrong", atkWrong, generateAlertsCore atkWrong ++ [noiseAlert],
                "redPlayer", "198.51.100.9", false⟩
    ∧ (resolveOutcomeTiered atkWrong [ticketAction]
        (generateAlertsCore atkWrong ++ [noiseAlert])).score_delta_red = 10
    ∧ sampleSubmit.1 = .ok ()
    ∧ sampleSubmit.2.score.red = 10 := by
  refine ⟨rfl, ?_, ?_, ?_, ?_, ?_, ?_⟩ <;> decide

/-- The shared completion block increments red's counter and only red's. -/
lemma completeTurn_red_counts (g : GState) (now : Nat) :
    (completeTurn g Side.red now).red_turn_count = g.red_turn_count + 1
    ∧ (completeTurn g Side.red now).blue_turn_count = g.blue_turn_count := by
  unfold completeTurn handTurnTo otherSide
  dsimp only
  repeat' split
  all_goals exact ⟨rfl, rfl⟩

/-- The shared completion block increments blue's counter and only blue's. -/
lemma completeTurn_blue_counts (g : GState) (now : Nat) :
    (completeTurn g Side.blue now).blue_turn_count = g.blue_turn_count + 1
    ∧ (completeTurn g Side.blue now).red_turn_count = g.red_turn_count := by
  unfold completeTurn handTurnTo otherSide
  dsimp only
  repeat' split
  all_goals exact ⟨rfl, rfl⟩

/-- A timer-driven switch flips the side and restarts the turn clock but
leaves both turn counters alone. -/
lemma timerTick_timeout (g : GState) (now : Nat) (turn : Side) (t0 ts : Nat)
    (h1 : g.status = GameStatus.running) (h2 : g.red_briefing_dismissed = true)
    (h3 : g.start_time = some t0) (h4 : g.current_turn = some turn)
    (h5 : g.turn_start_time = some ts) (h6 : now - ts ≥ g.turn_time_limit) :
    (timerTick g now).red_turn_count = g.red_turn_count
    ∧ (timerTick g now).blue_turn_count = g.blue_turn_count
    ∧ (timerTick g now).current_turn = some (otherSide turn)
    ∧ (timerTick g now).turn_start_time = some now := by
  unfold timerTick
  rw [h3]
  dsimp only
  rw [if_pos ⟨h1, h2⟩]
  simp only [h4, h5]
  rw [if_pos h6]
  split <;> exact ⟨rfl, rfl, rfl, rfl⟩

/-- Every accepted attack launch (blocked-IP path included) increments
red's turn counter by exactly one. -/
lemma launchAttack_ok_red_count (st : EngineState) (scenarios : List Scenario)
    (attackId player sourceIp : String) (noise : List Alert) (now : Nat)
    (r : LaunchResult) :
    (launchAttack st scenarios attackId player sourceIp noise now).1 = .ok r →
    (launchAttack st scenarios attackId player sourceIp noise now).2.game.red_turn_count
      = st.game.red_turn_count + 1 := by
  unfold launchAttack
  repeat' split
  all_goals
    first
      | (intro h; simp at h; done)
      | (intro h; rfl)
      | (intro h; exact (completeTurn_red_counts _ _).1)

/-- C7: a turn switch caused by the turn timer (elapsed ≥ turn_time_limit)
flips current_turn, resets turn_start_time and leaves both turn counters
unchanged, while every voluntary completion — attack launch, action
submission, vote majority, all of which run the shared completion block —
increments exactly the completing side's counter by one. -/
theorem c7_turn_counter_discipline :
    (∀ (g : GState) (now : Nat) (turn : Side) (t0 ts : Nat),
        g.status = GameStatus.running → g.red_briefing_dismissed = true →
        g.start_time = some t0 → g.current_turn = some turn →
        g.turn_start_time = some ts → now - ts ≥ g.turn_time_limit →
        (timerTick g now).red_turn_count = g.red_turn_count
        ∧ (timerTick g now).blue_turn_count = g.blue_turn_count
        ∧ (timerTick g now).current_turn = some (otherSide turn)
        ∧ (timerTick g now).turn_start_time = some now)
    ∧ (∀ (g : GState) (now : Nat),
        (completeTurn g Side.red now).red_turn_count = g.red_turn_count + 1
        ∧ (completeTurn g Side.red now).blue_turn_count = g.blue_turn_count)
    ∧ (∀ (g : GState) (now : Nat),
        (completeTurn g Side.blue now).blue_turn_count = g.blue_turn_count + 1
        ∧ (completeTurn g Side.blue now).red_turn_count = g.red_turn_count)
    ∧ (∀ (st : EngineState) (scenarios : List Scenario)
          (attackId player sourceIp : String) (noise : List Alert) (now : Nat)
          (r : LaunchResult),
        (launchAttack st scenarios attackId player sourceIp noise now).1 = .ok r →
        (launchAttack st scenarios attackId player sourceIp noise now).2.game.red_turn_count
          = st.game.red_turn_count + 1) :=
  ⟨fun g now turn t0 ts h1 h2 h3 h4 h5 h6 =>
      timerTick_timeout g now turn t0 ts h1 h2 h3 h4 h5 h6,
   fun g now => completeTurn_red_counts g now,
   fun g now => completeTurn_blue_counts g now,
   fun st scen aid pl ip noise now r h =>
      launchAttack_ok_red_count st scen aid pl ip noise now r h⟩

/-- C7 witness: a concrete 400-second tick against a 300-second limit
switches the side without touching the counters, and the sample launch
increments red's counter. -/
theorem c7_turn_counter_discipline_witness :
    ((timerTick sampleGame 400).red_turn_count = sampleGame.red_turn_count
      ∧ (timerTick sampleGame 400).blue_turn_count = sampleGame.blue_turn_count
      ∧ (timerTick sampleGame 400).current_turn = some (otherSide Side.red)
      ∧ (timerTick sampleGame 400).turn_start_time = some 400)
    ∧ (launchAttack sampleState [sampleScenario] "atk-wrong" "redPlayer"
        "198.51.100.9" [noiseAlert] 10).2.game.red_turn_count
        = sampleState.game.red_turn_count + 1 :=
  ⟨c7_turn_counter_discipline.1 sampleGame 400 Side.red 0 0 rfl rfl rfl rfl rfl
      (by decide),
   c7_turn_counter_discipline.2.2.2 sampleState [sampleScenario] "atk-wrong"
      "redPlayer" "198.51.100.9" [noiseAlert] 10 LaunchResult.miss (by decide)⟩

/-- A rejected attack launch returns the engine state untouched. -/
lemma launchAttack_error_state (st : EngineState) (scenarios : List Scenario)
    (attackId player sourceIp : String) (noise : List Alert) (now : Nat)
    (e : LaunchErr) :
    (launchAttack st scenarios attackId player sourceIp noise now).1 = .error e →
    (launchAttack st scenarios attackId player sourceIp noise now).2 = st := by
  unfold launchAttack
  repeat' split
  all_goals
    first
      | (intro _; rfl)
      | (intro h; simp at h)

/-- A rejected action submission returns the engine state untouched. -/
lemma submitAction_error_state (st : EngineState) (scenarios : List Scenario)
    (action : BlueAction) (now : Nat) (e : ActionErr) :
    (submitAction st scenarios action now).1 = .error e →
    (submitAction st scenarios action now).2 = st := by
  unfold submitAction
  dsimp only
  repeat' split
  all_goals
    first
      | (intro _; rfl)
      | (intro h; simp at h)

/-- C8: every precondition rejection (game not running, wrong turn,
per-turn guard consumed, missing scenario or attack, unmet scan gate)
happens before any mutation: a rejected launch or action submission leaves
the whole engine state — game state with its vote ledgers, scores, and the
launched-attack and blue-action lists — exactly as it was. -/
theorem c8_rejection_no_mutation :
    (∀ (st : EngineState) (scenarios : List Scenario)
        (attackId player sourceIp : String) (noise : List Alert) (now : Nat)
        (e : LaunchErr),
      (launchAttack st scenarios attackId player sourceIp noise now).1 = .error e →
      (launchAttack st scenarios attackId player sourceIp noise now).2 = st)
    ∧ (∀ (st : EngineState) (scenarios : List Scenario) (action : BlueAction)
          (now : Nat) (e : ActionErr),
      (submitAction st scenarios action now).1 = .error e →
      (submitAction st scenarios action now).2 = st) :=
  ⟨launchAttack_error_state, submitAction_error_state⟩

/-- C8 witness: a launch on blue's turn and a submission on red's turn are
rejected and leave their states byte-for-byte unchanged. -/
theorem c8_rejection_no_mutation_witness :
    (launchAttack sampleLaunch.2 [sampleScenario] "atk-wrong" "redPlayer"
        "198.51.100.9" [noiseAlert] 30).2 = sampleLaunch.2
    ∧ (submitAction sampleState [sampleScenario] ticketAction 20).2 = sampleState :=
  ⟨c8_rejection_no_mutation.1 sampleLaunch.2 [sampleScenario] "atk-wrong" "redPlayer"
      "198.51.100.9" [noiseAlert] 30 LaunchErr.notRedTurn (by decide),
   c8_rejection_no_mutation.2 sampleState [sampleScenario] ticketAction 20
      ActionErr.notBlueTurn (by decide)⟩

/-- C10: for an attack with requires_scan = true (all other launch
preconditions met and the source IP not blocked), the scan gate asks only
whether any scan was completed this round: with red_scan_completed the
launch is accepted whatever scan tool was recorded and whatever the
attack's required_scan_tool says, and it is rejected with the scan-gate
error exactly when no scan at all was completed; and run_scan sets
red_scan_completed for every tool. -/
theorem c10_scan_gate_tool_agnostic :
    (∀ (st : EngineState) (scenarios : List Scenario)
        (attackId player sourceIp : String) (noise : List Alert) (now : Nat)
        (sid : String) (scenario : Scenario) (attack : Attack),
      st.game.status = GameStatus.running →
      st.game.current_turn = some Side.red →
      st.game.red_attack_this_turn = false →
      st.game.current_scenario_id = some sid →
      lookupScenario scenarios sid = some scenario →
      scenario.attacks.find? (fun a => a.id == attackId) = some attack →
      sourceIp ∉ st.game.blocked_ips →
      attack.requires_scan = true →
      ((st.game.red_scan_completed = true →
          (launchAttack st scenarios attackId player sourceIp noise now).1
            = .ok (if attack.is_correct_choice then LaunchResult.pending
                   else LaunchResult.miss))
        ∧ (st.game.red_scan_completed = false →
          (launchAttack st scenarios attackId player sourceIp noise now).1
            = .error LaunchErr.scanRequired)))
    ∧ (∀ (st : EngineState) (scenario : Scenario) (tool : ScanToolType)
          (sourceIp : String),
        (runScan st scenario tool sourceIp).game.red_scan_completed = true) := by
  constructor
  · intro st scenarios attackId player sourceIp noise now sid scenario attack
      h1 h2 h3 h4 h5 h6 h7 h8
    have n1 : ¬ st.game.status ≠ GameStatus.running := by simp [h1]
    have n2 : ¬ st.game.current_turn ≠ some Side.red := by simp [h2]
    have n3 : ¬ st.game.red_attack_this_turn = true := by simp [h3]
    constructor
    · intro hscan
      unfold launchAttack
      rw [if_neg n1, if_neg n2, if_neg n3]
      simp only [h4, h5, h6]
      rw [if_neg h7]
      rw [if_neg (by simp [h8, hscan])]
    · intro hscan
      unfold launchAttack
      rw [if_neg n1, if_neg n2, if_neg n3]
      simp only [h4, h5, h6]
      rw [if_neg h7]
      rw [if_pos ⟨h8, by simp [hscan]⟩]
  · intro st scenario tool sourceIp
    rfl

/-- C10 witness: atk-right requires an OWASP ZAP scan; with only a
mismatched Nmap scan completed the launch is accepted, and with no scan at
all it is rejected by the scan gate. -/
theorem c10_scan_gate_tool_agnostic_witness :
    (launchAttack sampleState [sampleScenario] "atk-right" "redPlayer"
        "198.51.100.9" [noiseAlert] 10).1 = .ok LaunchResult.pending
    ∧ (launchAttack
        { sampleState with game := { sampleState.game with red_scan_completed := false } }
        [sampleScenario] "atk-right" "redPlayer" "198.51.100.9" [noiseAlert] 10).1
        = .error LaunchErr.scanRequired := by
  constructor
  · have h := (c10_scan_gate_tool_agnostic.1 sampleState [sampleScenario] "atk-right"
      "redPlayer" "198.51.100.9" [noiseAlert] 10 "s1" sampleScenario atkRight
      rfl rfl rfl rfl (by decide) (by decide) (by decide) rfl).1 rfl
    simpa using h
  · exact (c10_scan_gate_tool_agnostic.1
      { sampleState with game := { sampleState.game with red_scan_completed := false } }
      [sampleScenario] "atk-right" "redPlayer" "198.51.100.9" [noiseAlert] 10 "s1"
      sampleScenario atkRight rfl rfl rfl rfl (by decide) (by decide) (by decide) rfl).2 rfl

end PewPew
